import Mathlib

/-!
Verification of the shader program-binary cache in
`src/1.getting_started/3.7.shaders_binary/shaders_binary.cpp`.

The C++ code talks to an OpenGL driver through a fixed set of entry points
(`glGetIntegerv`, `glGetProgramiv`, `glGetProgramBinary`, `glGetError`,
`glCreateProgram`, `glProgramBinary`, `glDeleteProgram`) and to the file
system through `std::ifstream` / `std::ofstream`.  The embedding models the
driver as a record of response oracles (one field per driver query the code
performs), the cache file as a `List Nat` of bytes, and each C++ function as
an executable Lean function that mirrors the control flow of the source
statement by statement.  Diagnostic `std::cout` lines are modelled as a log
of strings (file names and numeric error codes are reproduced where a claim
depends on the message, elided otherwise).
-/

namespace ShadersBinary

/-- Little-endian encoding of a 32-bit value as four bytes, the memory image
`file.write(reinterpret_cast<const char*>(&x), 4)` produces on the
little-endian hosts the code targets. -/
def u32Bytes (n : Nat) : List Nat :=
  [n % 256, n / 256 % 256, n / 65536 % 256, n / 16777216 % 256]

/-- Little-endian decoding of a byte list, the value obtained by
`file.read(reinterpret_cast<char*>(&x), 4)` on the same host. -/
def decodeU32 (l : List Nat) : Nat :=
  l.foldr (fun b acc => b + 256 * acc) 0

/-- Reinterpretation of a 32-bit pattern as a signed `GLsizei`
(two's complement). -/
def decodeI32 (n : Nat) : Int :=
  if n < 2 ^ 31 then (n : Int) else (n : Int) - 2 ^ 32

/-- The OpenGL driver, modelled as the responses it gives to the queries the
program performs.  Handles are `Nat` (`GLuint`), counts and lengths that the
C++ reads into signed integers are `Int`.

* `numBinaryFormats` — what `glGetIntegerv(GL_NUM_PROGRAM_BINARY_FORMATS,…)` stores;
* `getProgramBinaryAvail` — whether the `glGetProgramBinary` pointer is non-null;
* `linkStatus p` — whether `glGetProgramiv(p, GL_LINK_STATUS,…)` stores `GL_TRUE`;
* `binaryLengthQuery p` — what `glGetProgramiv(p, GL_PROGRAM_BINARY_LENGTH,…)` stores;
* `getBinFormat p`, `getBinActualLength p`, `getBinData p` — the format tag,
  actual length, and the bytes `glGetProgramBinary(p,…)` deposits in the buffer;
* `errAfterGetBinary p` — whether `glGetError()` right after that call is non-zero;
* `freshProgram` — the handle `glCreateProgram()` returns inside the loader;
* `errAfterProgramBinary h fmt data` — whether `glGetError()` is non-zero right
  after `glProgramBinary(h, fmt, data.ptr, data.len)`;
* `linkAfterProgramBinary h fmt data` — the `GL_LINK_STATUS` of `h` after that call;
* `vertexCompileOk`, `fragmentCompileOk`, `sourceLinkOk`, `sourceProgram` —
  the compile/link statuses and the `glCreateProgram()` handle seen by
  `createShaderProgramFromSource`. -/
structure Driver where
  numBinaryFormats : Int
  getProgramBinaryAvail : Bool
  linkStatus : Nat → Bool
  binaryLengthQuery : Nat → Int
  getBinFormat : Nat → Nat
  getBinActualLength : Nat → Int
  getBinData : Nat → List Nat
  errAfterGetBinary : Nat → Bool
  freshProgram : Nat
  errAfterProgramBinary : Nat → Nat → List Nat → Bool
  linkAfterProgramBinary : Nat → Nat → List Nat → Bool
  vertexCompileOk : Bool
  fragmentCompileOk : Bool
  sourceLinkOk : Bool
  sourceProgram : Nat

/-- `checkProgramBinarySupport` (lines 33–49): returns the support flag and
the `std::cout` lines it prints.  `formats < 1` yields `false`; a missing
`glGetProgramBinary` pointer only logs a warning and still yields `true`. -/
def checkProgramBinarySupport (d : Driver) : Bool × List String :=
  if d.numBinaryFormats < 1 then
    (false, ["Driver reports no program binary formats supported"])
  else if d.getProgramBinaryAvail = false then
    (true, ["glGetProgramBinary function not available"])
  else
    (true, ["Program binary supported. Number of formats: " ++
      toString d.numBinaryFormats])

/-- Contents of the `std::vector<GLubyte> binaryData(length)` buffer after
`glGetProgramBinary`: the driver's bytes, then the vector's zero-initialised
tail, truncated to the allocated `length`. -/
def glBuffer (d : Driver) (p : Nat) : List Nat :=
  (d.getBinData p ++ List.replicate (d.binaryLengthQuery p).toNat 0).take
    (d.binaryLengthQuery p).toNat

/-- The payload `saveProgramBinary` writes: the first `actualLength` bytes of
the buffer (`file.write(binaryData.data(), actualLength)`, line 117). -/
def savedPayload (d : Driver) (p : Nat) : List Nat :=
  (glBuffer d p).take (d.getBinActualLength p).toNat

/-- The full byte sequence `saveProgramBinary` writes to the stream:
format tag (4 bytes), actual length (4 bytes), payload (lines 115–117).
The 32-bit stores are modelled by reduction mod `2^32`. -/
def savedBytes (d : Driver) (p : Nat) : List Nat :=
  u32Bytes (d.getBinFormat p % 2 ^ 32) ++
    u32Bytes ((d.getBinActualLength p % (2 : Int) ^ 32).toNat) ++
    savedPayload d p

/-- Result of `saveProgramBinary`: the returned `bool`, the bytes handed to
`file.write` (`none` when the write stage was never reached; when `ok` is
`false` at the stream-good check the on-disk state is not guaranteed and only
`written` records what was submitted), and the printed lines. -/
structure SaveOutcome where
  ok : Bool
  written : Option (List Nat)
  logs : List String

/-- `saveProgramBinary` (lines 52–129).  `canOpenWrite` is whether
`std::ofstream(filename, binary)` opens (the path is writable);
`streamGood` is whether `file.good()` still holds after the three writes and
the close. -/
def saveProgramBinary (d : Driver) (canOpenWrite streamGood : Bool)
    (program : Nat) : SaveOutcome :=
  if program = 0 then
    ⟨false, none, ["Invalid program object"]⟩
  else if ¬ d.linkStatus program then
    ⟨false, none, ["Program is not successfully linked"]⟩
  else
    let chk := checkProgramBinarySupport d
    if ¬ chk.1 then
      ⟨false, none, chk.2 ++ ["Program binary not supported, cannot save"]⟩
    else
      let length := d.binaryLengthQuery program
      if length ≤ 0 then
        ⟨false, none, chk.2 ++
          ["Program binary length is 0 or invalid: " ++ toString length]⟩
      else
        let log1 := chk.2 ++
          ["Program binary length: " ++ toString length ++ " bytes"]
        let actualLength := d.getBinActualLength program
        if d.errAfterGetBinary program then
          ⟨false, none, log1 ++ ["OpenGL error after glGetProgramBinary"]⟩
        else
          let log2 := if actualLength = length then log1 else
            log1 ++ ["Warning: Actual binary length differs from reported length"]
          if actualLength = 0 then
            ⟨false, none, log2 ++ ["No binary data retrieved"]⟩
          else if ¬ canOpenWrite then
            ⟨false, none, log2 ++ ["Failed to open file for writing"]⟩
          else if ¬ streamGood then
            ⟨false, some (savedBytes d program), log2 ++
              ["Failed to write program binary to file"]⟩
          else
            ⟨true, some (savedBytes d program), log2 ++
              ["Program binary saved successfully"]⟩

/-- Result of `loadProgramBinary`: the returned handle (`0` = failure),
the payload bytes actually read from the file (`none` if the payload
`file.read` was never executed), the `(format, data)` pair submitted to
`glProgramBinary` (`none` if never reached), the program object created by
`glCreateProgram` (`none` if never reached), and the objects passed to
`glDeleteProgram` before returning. -/
structure LoadOutcome where
  result : Nat
  payloadRead : Option (List Nat)
  submitted : Option (Nat × List Nat)
  created : Option Nat
  deleted : List Nat

/-- The `binaryFormat` local after the first header `file.read` (line 150):
the first four file bytes, or the indeterminate initial contents `junkFmt`
of the uninitialised local when the read fails short. -/
def parsedFormat (junkFmt : Nat) (bs : List Nat) : Nat :=
  if 4 ≤ bs.length then decodeU32 (bs.take 4) else junkFmt

/-- The `length` local after the second header `file.read` (line 151):
bytes 4–7 reinterpreted as a signed `GLsizei`, or the indeterminate value
`junkLen` when the read fails short. -/
def parsedLength (junkLen : Int) (bs : List Nat) : Int :=
  if 8 ≤ bs.length then decodeI32 (decodeU32 ((bs.drop 4).take 4))
  else junkLen

/-- `loadProgramBinary` (lines 132–207).  `file` is the contents of the
cache file (`none` when `std::ifstream` fails to open).  When the file holds
fewer than 8 bytes, the uninitialised header locals stay (partly)
indeterminate — made explicit by `junkFmt` / `junkLen`; the stream failbit
then makes the payload read extract 0 bytes, as in the source (modelled by
`bs.drop 8 = []` there).  The payload read extracts `min length remaining`
bytes and `file.gcount()` reports that count, which line 164 compares
against `length`. -/
def loadProgramBinary (d : Driver) (junkFmt : Nat) (junkLen : Int)
    (file : Option (List Nat)) : LoadOutcome :=
  if ¬ (checkProgramBinarySupport d).1 then
    ⟨0, none, none, none, []⟩
  else
    match file with
    | none => ⟨0, none, none, none, []⟩
    | some bs =>
      let binaryFormat := parsedFormat junkFmt bs
      let length := parsedLength junkLen bs
      if length ≤ 0 then
        ⟨0, none, none, none, []⟩
      else
        let data := (bs.drop 8).take length.toNat
        if (data.length : Int) ≠ length then
          ⟨0, some data, none, none, []⟩
        else
          let program := d.freshProgram
          if d.errAfterProgramBinary program binaryFormat data then
            ⟨0, some data, some (binaryFormat, data), some program, [program]⟩
          else if ¬ d.linkAfterProgramBinary program binaryFormat data then
            ⟨0, some data, some (binaryFormat, data), some program, [program]⟩
          else
            ⟨program, some data, some (binaryFormat, data), some program, []⟩

/-- `createShaderProgramFromSource` (lines 209–265): compile both shader
stages, link, return the handle, or `0` at the first failed status check. -/
def createShaderProgramFromSource (d : Driver) : Nat :=
  if ¬ d.vertexCompileOk then 0
  else if ¬ d.fragmentCompileOk then 0
  else if ¬ d.sourceLinkOk then 0
  else d.sourceProgram

/-- The compile-time constant cache path (line 268). -/
def binaryFilename : String := "shader_program.bin"

/-- The world `createOrLoadShaderProgram` runs in: the driver, the file
system (`fs path = some bytes` when the file exists), per-path write-open and
stream-good oracles for the save, and the indeterminate-memory values the
loader would see on a short header read. -/
structure World where
  driver : Driver
  fs : String → Option (List Nat)
  canOpenWrite : String → Bool
  writeGood : String → Bool
  junkFmt : Nat
  junkLen : Int

/-- Result of one `createOrLoadShaderProgram` call: the returned handle,
whether `loadProgramBinary` / `saveProgramBinary` were invoked, the file
contents passed to the load, the save's returned `bool`, the bytes a
successful save put on disk, and the file system afterwards.  On a failed
save the file system is left as before (a failed write's partial on-disk
content is not modelled; no claim depends on it). -/
structure OrchestratorOutcome where
  result : Nat
  loadInvoked : Bool
  loadFile : Option (List Nat)
  saveInvoked : Bool
  saveOk : Option Bool
  diskBytes : Option (List Nat)
  fsAfter : String → Option (List Nat)

/-- `createOrLoadShaderProgram` (lines 267–303).  The C++ memoizes
`binarySupported` in a function-local `static`; within a single process the
probe is deterministic in the driver, so the model recomputes it. -/
def createOrLoadShaderProgram (w : World) : OrchestratorOutcome :=
  let binarySupported := (checkProgramBinarySupport w.driver).1
  if binarySupported then
    let cached := w.fs binaryFilename
    let lo := loadProgramBinary w.driver w.junkFmt w.junkLen cached
    if lo.result ≠ 0 then
      ⟨lo.result, true, cached, false, none, none, w.fs⟩
    else
      let program := createShaderProgramFromSource w.driver
      if program = 0 then
        ⟨0, true, cached, false, none, none, w.fs⟩
      else
        let so := saveProgramBinary w.driver (w.canOpenWrite binaryFilename)
          (w.writeGood binaryFilename) program
        if so.ok then
          ⟨program, true, cached, true, some true, so.written,
            fun q => if q = binaryFilename then so.written else w.fs q⟩
        else
          ⟨program, true, cached, true, some false, none, w.fs⟩
  else
    let program := createShaderProgramFromSource w.driver
    ⟨program, false, none, false, none, none, w.fs⟩

/-- A concrete driver on which every operation behaves: one binary format,
all statuses good, a 4-byte binary `[1,2,3,4]` with format tag 7 for every
program, fresh handle 5 in the loader, handle 9 from source compilation, and
binary reload accepted. -/
def okDriver : Driver where
  numBinaryFormats := 1
  getProgramBinaryAvail := true
  linkStatus := fun _ => true
  binaryLengthQuery := fun _ => 4
  getBinFormat := fun _ => 7
  getBinActualLength := fun _ => 4
  getBinData := fun _ => [1, 2, 3, 4]
  errAfterGetBinary := fun _ => false
  freshProgram := 5
  errAfterProgramBinary := fun _ _ _ => false
  linkAfterProgramBinary := fun _ _ _ => true
  vertexCompileOk := true
  fragmentCompileOk := true
  sourceLinkOk := true
  sourceProgram := 9

/-- A concrete world over `okDriver` with an empty file system and writable
paths. -/
def okWorld : World where
  driver := okDriver
  fs := fun _ => none
  canOpenWrite := fun _ => true
  writeGood := fun _ => true
  junkFmt := 0
  junkLen := 0

/-- `okDriver` with the `glGetProgramBinary` pointer unavailable. -/
def noPtrDriver : Driver :=
  { okDriver with getProgramBinaryAvail := false }

theorem decodeU32_u32Bytes (n : Nat) (h : n < 2 ^ 32) :
    decodeU32 (u32Bytes n) = n := by
  simp only [decodeU32, u32Bytes, List.foldr]
  omega

theorem u32Bytes_length (n : Nat) : (u32Bytes n).length = 4 := rfl

theorem decodeI32_of_lt (n : Nat) (h : n < 2 ^ 31) : decodeI32 n = n := by
  rw [decodeI32, if_pos h]

/-- C5 — Capability-prober asymmetry: `checkProgramBinarySupport` returns
`false` iff the driver reports fewer than 1 binary format; when the count is
at least 1 but the `glGetProgramBinary` pointer is unavailable it still
returns `true` and logs the distinct warning. -/
theorem c5_capability_prober_asymmetry (d : Driver) :
    ((checkProgramBinarySupport d).1 = false ↔ d.numBinaryFormats < 1) ∧
    (1 ≤ d.numBinaryFormats → d.getProgramBinaryAvail = false →
      (checkProgramBinarySupport d).1 = true ∧
      (checkProgramBinarySupport d).2 =
        ["glGetProgramBinary function not available"]) := by
  unfold checkProgramBinarySupport
  by_cases h : d.numBinaryFormats < 1
  · simp [h]
  · by_cases h2 : d.getProgramBinaryAvail = false <;> simp [h, h2]

/-- Witness for C5 at a concrete driver with one format and no retrieval
pointer: the probe still reports support and logs the distinct warning. -/
theorem c5_capability_prober_asymmetry_witness :
    (checkProgramBinarySupport noPtrDriver).1 = true ∧
    (checkProgramBinarySupport noPtrDriver).2 =
      ["glGetProgramBinary function not available"] :=
  (c5_capability_prober_asymmetry noPtrDriver).2 (by decide) (by decide)

/-- Case analysis on a `loadProgramBinary` run: either it failed before
`glCreateProgram` (no object, sentinel 0, nothing submitted or deleted), or
it created `d.freshProgram`, submitted a `(format, data)` pair, and then
either a submission-stage failure deleted the object and returned 0, or the
load succeeded and returned the object undeleted. -/
theorem loadProgramBinary_shape (d : Driver) (jf : Nat) (jl : Int)
    (file : Option (List Nat)) :
    ((loadProgramBinary d jf jl file).result = 0 ∧
      (loadProgramBinary d jf jl file).submitted = none ∧
      (loadProgramBinary d jf jl file).created = none ∧
      (loadProgramBinary d jf jl file).deleted = []) ∨
    (∃ fmt data,
      (loadProgramBinary d jf jl file).submitted = some (fmt, data) ∧
      (loadProgramBinary d jf jl file).created = some d.freshProgram ∧
      (((d.errAfterProgramBinary d.freshProgram fmt data = true ∨
          d.linkAfterProgramBinary d.freshProgram fmt data = false) ∧
        (loadProgramBinary d jf jl file).result = 0 ∧
        (loadProgramBinary d jf jl file).deleted = [d.freshProgram]) ∨
       (d.errAfterProgramBinary d.freshProgram fmt data = false ∧
        d.linkAfterProgramBinary d.freshProgram fmt data = true ∧
        (loadProgramBinary d jf jl file).result = d.freshProgram ∧
        (loadProgramBinary d jf jl file).deleted = []))) := by
  unfold loadProgramBinary
  split
  · exact Or.inl ⟨rfl, rfl, rfl, rfl⟩
  · split
    · exact Or.inl ⟨rfl, rfl, rfl, rfl⟩
    · dsimp only
      split
      · exact Or.inl ⟨rfl, rfl, rfl, rfl⟩
      · split
        · exact Or.inl ⟨rfl, rfl, rfl, rfl⟩
        · split
          case isTrue herr =>
            exact Or.inr ⟨_, _, rfl, rfl, Or.inl ⟨Or.inl herr, rfl, rfl⟩⟩
          case isFalse herr =>
            split
            case isTrue hlink =>
              exact Or.inr ⟨_, _, rfl, rfl,
                Or.inl ⟨Or.inr (by simpa using hlink), rfl, rfl⟩⟩
            case isFalse hlink =>
              exact Or.inr ⟨_, _, rfl, rfl,
                Or.inr ⟨by simpa using herr, by simpa using hlink, rfl, rfl⟩⟩

/-- C2 — Deserializer cleanup: whenever `loadProgramBinary` has created the
new program object, any failure at the submission stage (driver error state
set after `glProgramBinary`, or link status false on the new object) deletes
that object and the function returns the sentinel `0`; and whenever the
function returns non-zero, the returned handle is exactly the created,
not-deleted object — never a dangling or partially-initialized handle. -/
theorem c2_deserializer_cleanup (d : Driver) (jf : Nat) (jl : Int)
    (file : Option (List Nat)) (c : Nat)
    (hc : (loadProgramBinary d jf jl file).created = some c) :
    (∀ s, (loadProgramBinary d jf jl file).submitted = some s →
      (d.errAfterProgramBinary c s.1 s.2 = true ∨
        d.linkAfterProgramBinary c s.1 s.2 = false) →
      (loadProgramBinary d jf jl file).result = 0 ∧
      (loadProgramBinary d jf jl file).deleted = [c]) ∧
    ((loadProgramBinary d jf jl file).result ≠ 0 →
      (loadProgramBinary d jf jl file).result = c ∧
      (loadProgramBinary d jf jl file).deleted = []) := by
  rcases loadProgramBinary_shape d jf jl file with
    ⟨h0, hsub, hcr, hdel⟩ | ⟨fmt, data, hsub, hcr, hrest⟩
  · rw [hc] at hcr
    exact absurd hcr (by simp)
  · rw [hc] at hcr
    obtain rfl : c = d.freshProgram := by
      simpa using hcr
    rcases hrest with ⟨hfail, h0, hdel⟩ | ⟨herr, hlink, hres, hdel⟩
    · refine ⟨fun s hs hf => ⟨h0, hdel⟩, fun hne => absurd h0 hne⟩
    · refine ⟨fun s hs hf => ?_, fun hne => ⟨hres, hdel⟩⟩
      rw [hsub] at hs
      obtain rfl : s = (fmt, data) := by
        simpa using hs.symm
      rcases hf with hf | hf
      · rw [herr] at hf
        exact absurd hf (by simp)
      · rw [hlink] at hf
        exact absurd hf (by simp)

/-- Witness for C2: on `okDriver` with a valid 12-byte cache file but the
reload rejected by the driver (link fails), the created object 5 is deleted
and the load returns 0. -/
theorem c2_deserializer_cleanup_witness :
    (loadProgramBinary
      { okDriver with linkAfterProgramBinary := fun _ _ _ => false } 0 0
      (some [7, 0, 0, 0, 4, 0, 0, 0, 1, 2, 3, 4])).result = 0 ∧
    (loadProgramBinary
      { okDriver with linkAfterProgramBinary := fun _ _ _ => false } 0 0
      (some [7, 0, 0, 0, 4, 0, 0, 0, 1, 2, 3, 4])).deleted = [5] :=
  (c2_deserializer_cleanup
    { okDriver with linkAfterProgramBinary := fun _ _ _ => false } 0 0
    (some [7, 0, 0, 0, 4, 0, 0, 0, 1, 2, 3, 4]) 5 (by decide)).1
    (7, [1, 2, 3, 4]) (by decide) (Or.inr (by decide))

/-- C9 — Zero-length rejection: on a supported driver, a cache file whose
8-byte header declares `length ≤ 0` makes `loadProgramBinary` return the
sentinel 0 with the payload read never attempted (and no program object
created). -/
theorem c9_zero_length_rejection (d : Driver) (jf : Nat) (jl : Int)
    (bs : List Nat)
    (hsup : (checkProgramBinarySupport d).1 = true)
    (h8 : 8 ≤ bs.length)
    (hlen : decodeI32 (decodeU32 ((bs.drop 4).take 4)) ≤ 0) :
    (loadProgramBinary d jf jl (some bs)).result = 0 ∧
    (loadProgramBinary d jf jl (some bs)).payloadRead = none ∧
    (loadProgramBinary d jf jl (some bs)).created = none := by
  have hpl : parsedLength jl bs ≤ 0 := by
    rw [parsedLength, if_pos h8]
    exact hlen
  unfold loadProgramBinary
  rw [if_neg (by simp [hsup])]
  dsimp only
  rw [if_pos hpl]
  exact ⟨rfl, rfl, rfl⟩

/-- Witness for C9 at a concrete file `[7,0,0,0, 0,0,0,0]` declaring
length 0 on `okDriver`. -/
theorem c9_zero_length_rejection_witness :
    (loadProgramBinary okDriver 0 0 (some [7, 0, 0, 0, 0, 0, 0, 0])).result
        = 0 ∧
    (loadProgramBinary okDriver 0 0
        (some [7, 0, 0, 0, 0, 0, 0, 0])).payloadRead = none ∧
    (loadProgramBinary okDriver 0 0 (some [7, 0, 0, 0, 0, 0, 0, 0])).created
        = none :=
  c9_zero_length_rejection okDriver 0 0 [7, 0, 0, 0, 0, 0, 0, 0]
    (by decide) (by decide) (by decide)

/-- C8 — Truncated-file rejection: on a supported driver, a cache file whose
header declares a positive length strictly greater than the number of
payload bytes present makes `loadProgramBinary` detect the short read
(`gcount` below the requested count) and return the sentinel 0, with no
program object ever created from the partially filled buffer. -/
theorem c8_truncated_file_rejection (d : Driver) (jf : Nat) (jl : Int)
    (fmtB lenB payload : List Nat)
    (hsup : (checkProgramBinarySupport d).1 = true)
    (hf : fmtB.length = 4) (hl : lenB.length = 4)
    (hpos : 0 < decodeI32 (decodeU32 lenB))
    (htr : (payload.length : Int) < decodeI32 (decodeU32 lenB)) :
    (loadProgramBinary d jf jl (some (fmtB ++ (lenB ++ payload)))).result
        = 0 ∧
    (loadProgramBinary d jf jl (some (fmtB ++ (lenB ++ payload)))).created
        = none := by
  have hdrop4 : (fmtB ++ (lenB ++ payload)).drop 4 = lenB ++ payload := by
    rw [← hf, List.drop_left]
  have htake4 : (lenB ++ payload).take 4 = lenB := by
    rw [← hl, List.take_left]
  have h8 : 8 ≤ (fmtB ++ (lenB ++ payload)).length := by
    simp only [List.length_append, hf, hl]
    omega
  have hplen : parsedLength jl (fmtB ++ (lenB ++ payload)) =
      decodeI32 (decodeU32 lenB) := by
    rw [parsedLength, if_pos h8, hdrop4, htake4]
  have hdrop8 : (fmtB ++ (lenB ++ payload)).drop 8 = payload := by
    have h44 : (fmtB ++ (lenB ++ payload)).drop 8 =
        (((fmtB ++ (lenB ++ payload)).drop 4).drop 4) := by
      rw [List.drop_drop]
    rw [h44, hdrop4, ← hl, List.drop_left]
  have hle : payload.length ≤ (decodeI32 (decodeU32 lenB)).toNat := by
    omega
  unfold loadProgramBinary
  rw [if_neg (by simp [hsup])]
  dsimp only
  rw [hplen, if_neg (not_le.mpr hpos), hdrop8, List.take_of_length_le hle,
    if_pos htr.ne]
  exact ⟨rfl, rfl⟩

/-- Witness for C8 at a concrete file declaring length 9 with only 4 payload
bytes present on `okDriver`. -/
theorem c8_truncated_file_rejection_witness :
    (loadProgramBinary okDriver 0 0
        (some ([7, 0, 0, 0] ++ ([9, 0, 0, 0] ++ [1, 2, 3, 4])))).result
        = 0 ∧
    (loadProgramBinary okDriver 0 0
        (some ([7, 0, 0, 0] ++ ([9, 0, 0, 0] ++ [1, 2, 3, 4])))).created
        = none :=
  c8_truncated_file_rejection okDriver 0 0 [7, 0, 0, 0] [9, 0, 0, 0]
    [1, 2, 3, 4] (by decide) (by decide) (by decide) (by decide) (by decide)

/-- Case analysis on a `createOrLoadShaderProgram` run, naming the probe
result, the load result, the compiled handle and the save outcome. -/
theorem createOrLoadShaderProgram_shape (w : World) :
    ((checkProgramBinarySupport w.driver).1 = false ∧
      createOrLoadShaderProgram w =
        ⟨createShaderProgramFromSource w.driver, false, none, false, none,
          none, w.fs⟩) ∨
    ((checkProgramBinarySupport w.driver).1 = true ∧
      (loadProgramBinary w.driver w.junkFmt w.junkLen
        (w.fs binaryFilename)).result ≠ 0 ∧
      createOrLoadShaderProgram w =
        ⟨(loadProgramBinary w.driver w.junkFmt w.junkLen
            (w.fs binaryFilename)).result, true, w.fs binaryFilename, false,
          none, none, w.fs⟩) ∨
    ((checkProgramBinarySupport w.driver).1 = true ∧
      (loadProgramBinary w.driver w.junkFmt w.junkLen
        (w.fs binaryFilename)).result = 0 ∧
      createShaderProgramFromSource w.driver = 0 ∧
      createOrLoadShaderProgram w =
        ⟨0, true, w.fs binaryFilename, false, none, none, w.fs⟩) ∨
    ((checkProgramBinarySupport w.driver).1 = true ∧
      (loadProgramBinary w.driver w.junkFmt w.junkLen
        (w.fs binaryFilename)).result = 0 ∧
      createShaderProgramFromSource w.driver ≠ 0 ∧
      (saveProgramBinary w.driver (w.canOpenWrite binaryFilename)
        (w.writeGood binaryFilename)
        (createShaderProgramFromSource w.driver)).ok = true ∧
      createOrLoadShaderProgram w =
        ⟨createShaderProgramFromSource w.driver, true, w.fs binaryFilename,
          true, some true,
          (saveProgramBinary w.driver (w.canOpenWrite binaryFilename)
            (w.writeGood binaryFilename)
            (createShaderProgramFromSource w.driver)).written,
          fun q => if q = binaryFilename then
            (saveProgramBinary w.driver (w.canOpenWrite binaryFilename)
              (w.writeGood binaryFilename)
              (createShaderProgramFromSource w.driver)).written
          else w.fs q⟩) ∨
    ((checkProgramBinarySupport w.driver).1 = true ∧
      (loadProgramBinary w.driver w.junkFmt w.junkLen
        (w.fs binaryFilename)).result = 0 ∧
      createShaderProgramFromSource w.driver ≠ 0 ∧
      (saveProgramBinary w.driver (w.canOpenWrite binaryFilename)
        (w.writeGood binaryFilename)
        (createShaderProgramFromSource w.driver)).ok = false ∧
      createOrLoadShaderProgram w =
        ⟨createShaderProgramFromSource w.driver, true, w.fs binaryFilename,
          true, some false, none, w.fs⟩) := by
  unfold createOrLoadShaderProgram
  dsimp only
  split
  case isTrue hsup =>
    split
    case isTrue hlo =>
      exact Or.inr (Or.inl ⟨hsup, hlo, rfl⟩)
    case isFalse hlo =>
      split
      case isTrue hcomp =>
        refine Or.inr (Or.inr (Or.inl ⟨hsup, ?_, hcomp, rfl⟩))
        simpa using hlo
      case isFalse hcomp =>
        split
        case isTrue hsave =>
          exact Or.inr (Or.inr (Or.inr (Or.inl
            ⟨hsup, by simpa using hlo, hcomp, hsave, rfl⟩)))
        case isFalse hsave =>
          exact Or.inr (Or.inr (Or.inr (Or.inr
            ⟨hsup, by simpa using hlo, hcomp, by simpa using hsave, rfl⟩)))
  case isFalse hsup =>
    exact Or.inl ⟨by simpa using hsup, rfl⟩

/-- C4 — Unsupported-driver path: when the capability probe reports no
support, `createOrLoadShaderProgram` invokes neither `loadProgramBinary` nor
`saveProgramBinary` and its result is exactly what the source-compilation
collaborator returns. -/
theorem c4_unsupported_driver_path (w : World)
    (hsup : (checkProgramBinarySupport w.driver).1 = false) :
    (createOrLoadShaderProgram w).loadInvoked = false ∧
    (createOrLoadShaderProgram w).saveInvoked = false ∧
    (createOrLoadShaderProgram w).result =
      createShaderProgramFromSource w.driver := by
  rcases createOrLoadShaderProgram_shape w with
    ⟨h, he⟩ | ⟨h, _⟩ | ⟨h, _⟩ | ⟨h, _⟩ | ⟨h, _⟩
  · rw [he]
    exact ⟨rfl, rfl, rfl⟩
  all_goals rw [h] at hsup; cases hsup

/-- Witness for C4 at a driver reporting zero binary formats: no cache I/O
happens and the result is the source-compiled handle 9. -/
theorem c4_unsupported_driver_path_witness :
    (createOrLoadShaderProgram
      { okWorld with driver := { okDriver with numBinaryFormats := 0 } }
      ).loadInvoked = false ∧
    (createOrLoadShaderProgram
      { okWorld with driver := { okDriver with numBinaryFormats := 0 } }
      ).saveInvoked = false ∧
    (createOrLoadShaderProgram
      { okWorld with driver := { okDriver with numBinaryFormats := 0 } }
      ).result = createShaderProgramFromSource
        { okDriver with numBinaryFormats := 0 } :=
  c4_unsupported_driver_path
    { okWorld with driver := { okDriver with numBinaryFormats := 0 } }
    (by decide)

/-- C3 — Best-effort write-back: whenever the orchestrator reached the save
and the save returned `false`, the orchestrator still returns the non-zero
handle obtained from source compilation, unchanged. -/
theorem c3_best_effort_write_back (w : World)
    (hsave : (createOrLoadShaderProgram w).saveOk = some false) :
    (createOrLoadShaderProgram w).result =
      createShaderProgramFromSource w.driver ∧
    (createOrLoadShaderProgram w).result ≠ 0 := by
  rcases createOrLoadShaderProgram_shape w with
    ⟨_, he⟩ | ⟨_, _, he⟩ | ⟨_, _, _, he⟩ | ⟨_, _, _, _, he⟩ |
    ⟨_, _, hcomp, _, he⟩
  · rw [he] at hsave
    cases hsave
  · rw [he] at hsave
    cases hsave
  · rw [he] at hsave
    cases hsave
  · rw [he] at hsave
    cases hsave
  · rw [he]
    exact ⟨rfl, hcomp⟩

/-- Witness for C3 at a world whose cache path cannot be opened for writing:
the save fails but the orchestrator returns the compiled handle 9. -/
theorem c3_best_effort_write_back_witness :
    (createOrLoadShaderProgram
      { okWorld with canOpenWrite := fun _ => false }).result =
      createShaderProgramFromSource okDriver ∧
    (createOrLoadShaderProgram
      { okWorld with canOpenWrite := fun _ => false }).result ≠ 0 :=
  c3_best_effort_write_back
    { okWorld with canOpenWrite := fun _ => false } (by decide)

/-- C10 — Single fixed cache path: a successful write-back goes to the
compile-time constant `binaryFilename`, no other path changes, and the very
next `createOrLoadShaderProgram` run on the resulting file system hands
exactly those bytes to `loadProgramBinary`. -/
theorem c10_single_fixed_cache_path (w : World) (b : List Nat)
    (hd : (createOrLoadShaderProgram w).diskBytes = some b) :
    (createOrLoadShaderProgram w).fsAfter binaryFilename = some b ∧
    (∀ q, q ≠ binaryFilename →
      (createOrLoadShaderProgram w).fsAfter q = w.fs q) ∧
    (createOrLoadShaderProgram
      { w with fs := (createOrLoadShaderProgram w).fsAfter }).loadInvoked
      = true ∧
    (createOrLoadShaderProgram
      { w with fs := (createOrLoadShaderProgram w).fsAfter }).loadFile
      = some b := by
  rcases createOrLoadShaderProgram_shape w with
    ⟨_, he⟩ | ⟨_, _, he⟩ | ⟨_, _, _, he⟩ | ⟨hsup, _, _, _, he⟩ |
    ⟨_, _, _, _, he⟩
  · rw [he] at hd
    cases hd
  · rw [he] at hd
    cases hd
  · rw [he] at hd
    cases hd
  · rw [he] at hd ⊢
    have hw : (saveProgramBinary w.driver (w.canOpenWrite binaryFilename)
        (w.writeGood binaryFilename)
        (createShaderProgramFromSource w.driver)).written = some b := hd
    refine ⟨by simpa using hw, fun q hq => by simp [hq], ?_, ?_⟩
    · rcases createOrLoadShaderProgram_shape
        { w with fs := fun q => if q = binaryFilename then
            (saveProgramBinary w.driver (w.canOpenWrite binaryFilename)
              (w.writeGood binaryFilename)
              (createShaderProgramFromSource w.driver)).written
            else w.fs q } with
        ⟨h2, _⟩ | ⟨_, _, he2⟩ | ⟨_, _, _, he2⟩ | ⟨_, _, _, _, he2⟩ |
        ⟨_, _, _, _, he2⟩
      · rw [h2] at hsup
        cases hsup
      all_goals rw [he2]
    · rcases createOrLoadShaderProgram_shape
        { w with fs := fun q => if q = binaryFilename then
            (saveProgramBinary w.driver (w.canOpenWrite binaryFilename)
              (w.writeGood binaryFilename)
              (createShaderProgramFromSource w.driver)).written
            else w.fs q } with
        ⟨h2, _⟩ | ⟨_, _, he2⟩ | ⟨_, _, _, he2⟩ | ⟨_, _, _, _, he2⟩ |
        ⟨_, _, _, _, he2⟩
      · rw [h2] at hsup
        cases hsup
      all_goals rw [he2]; simpa using hw
  · rw [he] at hd
    cases hd

/-- Witness for C10 on `okWorld`: the first run caches
`[7,0,0,0,4,0,0,0,1,2,3,4]` at the fixed path and the second run loads that
very file. -/
theorem c10_single_fixed_cache_path_witness :
    (createOrLoadShaderProgram okWorld).fsAfter binaryFilename =
      some [7, 0, 0, 0, 4, 0, 0, 0, 1, 2, 3, 4] ∧
    (∀ q, q ≠ binaryFilename →
      (createOrLoadShaderProgram okWorld).fsAfter q = okWorld.fs q) ∧
    (createOrLoadShaderProgram
      { okWorld with fs := (createOrLoadShaderProgram okWorld).fsAfter }
      ).loadInvoked = true ∧
    (createOrLoadShaderProgram
      { okWorld with fs := (createOrLoadShaderProgram okWorld).fsAfter }
      ).loadFile = some [7, 0, 0, 0, 4, 0, 0, 0, 1, 2, 3, 4] :=
  c10_single_fixed_cache_path okWorld [7, 0, 0, 0, 4, 0, 0, 0, 1, 2, 3, 4]
    (by decide)

/-- C7 — Serializer precondition order: `saveProgramBinary` checks, in
order, (1) non-zero handle, (2) link status, (3) capability probe,
(4) positive queried binary length; each failure returns `false` with its
own distinct diagnostic, and a later check is reached only when every
earlier one passed (each conjunct below assumes exactly the earlier guards
and nothing later). -/
theorem c7_serializer_precondition_order (d : Driver) (co g : Bool)
    (p : Nat) :
    (p = 0 →
      (saveProgramBinary d co g p).ok = false ∧
      (saveProgramBinary d co g p).logs = ["Invalid program object"]) ∧
    (p ≠ 0 → d.linkStatus p = false →
      (saveProgramBinary d co g p).ok = false ∧
      (saveProgramBinary d co g p).logs =
        ["Program is not successfully linked"]) ∧
    (p ≠ 0 → d.linkStatus p = true →
      (checkProgramBinarySupport d).1 = false →
      (saveProgramBinary d co g p).ok = false ∧
      (saveProgramBinary d co g p).logs =
        (checkProgramBinarySupport d).2 ++
          ["Program binary not supported, cannot save"]) ∧
    (p ≠ 0 → d.linkStatus p = true →
      (checkProgramBinarySupport d).1 = true →
      d.binaryLengthQuery p ≤ 0 →
      (saveProgramBinary d co g p).ok = false ∧
      (saveProgramBinary d co g p).logs =
        (checkProgramBinarySupport d).2 ++
          ["Program binary length is 0 or invalid: " ++
            toString (d.binaryLengthQuery p)]) := by
  refine ⟨fun h1 => ?_, fun h1 h2 => ?_, fun h1 h2 h3 => ?_,
    fun h1 h2 h3 h4 => ?_⟩
  · rw [saveProgramBinary, if_pos h1]
    exact ⟨rfl, rfl⟩
  · rw [saveProgramBinary, if_neg h1, if_pos (by simp [h2])]
    exact ⟨rfl, rfl⟩
  · rw [saveProgramBinary, if_neg h1, if_neg (by simp [h2])]
    dsimp only
    rw [if_pos (by simp [h3])]
    exact ⟨rfl, rfl⟩
  · rw [saveProgramBinary, if_neg h1, if_neg (by simp [h2])]
    dsimp only
    rw [if_neg (by simp [h3]), if_pos h4]
    exact ⟨rfl, rfl⟩

/-- Witness for C7 at a driver whose queried binary length is 0 with all
earlier checks passing: the save fails with the length diagnostic. -/
theorem c7_serializer_precondition_order_witness :
    (saveProgramBinary
      { okDriver with binaryLengthQuery := fun _ => 0 } true true 5).ok
      = false ∧
    (saveProgramBinary
      { okDriver with binaryLengthQuery := fun _ => 0 } true true 5).logs =
      (checkProgramBinarySupport
        { okDriver with binaryLengthQuery := fun _ => 0 }).2 ++
        ["Program binary length is 0 or invalid: " ++
          toString (({ okDriver with binaryLengthQuery := fun _ => 0 } :
            Driver).binaryLengthQuery 5)] :=
  (c7_serializer_precondition_order
    { okDriver with binaryLengthQuery := fun _ => 0 } true true 5).2.2.2
    (by decide) (by decide) (by decide) (by decide)

/-- Elimination for a successful save: every guard along the single
`return true` path of `saveProgramBinary` passed, and the bytes written are
exactly `savedBytes`. -/
theorem saveProgramBinary_ok_elim (d : Driver) (co g : Bool) (p : Nat)
    (h : (saveProgramBinary d co g p).ok = true) :
    p ≠ 0 ∧ d.linkStatus p = true ∧
    (checkProgramBinarySupport d).1 = true ∧
    0 < d.binaryLengthQuery p ∧ d.errAfterGetBinary p = false ∧
    d.getBinActualLength p ≠ 0 ∧ co = true ∧ g = true ∧
    (saveProgramBinary d co g p).written = some (savedBytes d p) := by
  by_cases h1 : p = 0
  · rw [saveProgramBinary, if_pos h1] at h
    simp at h
  by_cases h2 : d.linkStatus p = true
  swap
  · rw [saveProgramBinary, if_neg h1, if_pos h2] at h
    simp at h
  by_cases h3 : (checkProgramBinarySupport d).1 = true
  swap
  · rw [saveProgramBinary, if_neg h1, if_neg (not_not_intro h2)] at h
    dsimp only at h
    rw [if_pos h3] at h
    simp at h
  by_cases h4 : d.binaryLengthQuery p ≤ 0
  · rw [saveProgramBinary, if_neg h1, if_neg (not_not_intro h2)] at h
    dsimp only at h
    rw [if_neg (not_not_intro h3), if_pos h4] at h
    simp at h
  by_cases h5 : d.errAfterGetBinary p = true
  · rw [saveProgramBinary, if_neg h1, if_neg (not_not_intro h2)] at h
    dsimp only at h
    rw [if_neg (not_not_intro h3), if_neg h4] at h
    rw [if_pos h5] at h
    simp at h
  by_cases h6 : d.getBinActualLength p = 0
  · rw [saveProgramBinary, if_neg h1, if_neg (not_not_intro h2)] at h
    dsimp only at h
    rw [if_neg (not_not_intro h3), if_neg h4] at h
    rw [if_neg h5, if_pos h6] at h
    simp at h
  by_cases h7 : co = true
  swap
  · rw [saveProgramBinary, if_neg h1, if_neg (not_not_intro h2)] at h
    dsimp only at h
    rw [if_neg (not_not_intro h3), if_neg h4] at h
    rw [if_neg h5, if_neg h6, if_pos h7] at h
    simp at h
  by_cases h8 : g = true
  swap
  · rw [saveProgramBinary, if_neg h1, if_neg (not_not_intro h2)] at h
    dsimp only at h
    rw [if_neg (not_not_intro h3), if_neg h4] at h
    rw [if_neg h5, if_neg h6, if_neg (not_not_intro h7), if_pos h8] at h
    simp at h
  refine ⟨h1, h2, h3, by omega, by simpa using h5, h6, h7, h8, ?_⟩
  rw [saveProgramBinary, if_neg h1, if_neg (not_not_intro h2)]
  dsimp only
  rw [if_neg (not_not_intro h3), if_neg h4]
  rw [if_neg h5, if_neg h6, if_neg (not_not_intro h7),
    if_neg (not_not_intro h8)]

/-- Under the `GLsizei`/`GLint` range guarantees (`0 ≤ actualLength ≤
queried length`) the written payload has exactly `actualLength` bytes. -/
theorem savedPayload_length (d : Driver) (p : Nat)
    (_hnn : 0 ≤ d.getBinActualLength p)
    (hle : d.getBinActualLength p ≤ d.binaryLengthQuery p) :
    (savedPayload d p).length = (d.getBinActualLength p).toNat := by
  have hbuf : (glBuffer d p).length = (d.binaryLengthQuery p).toNat := by
    rw [glBuffer, List.length_take, List.length_append, List.length_replicate]
    omega
  rw [savedPayload, List.length_take, hbuf]
  omega

/-- C6 — Serializer output layout: whenever `saveProgramBinary` returns
`true`, the bytes written are exactly the 4-byte format tag, then the 4-byte
actual length returned by `glGetProgramBinary`, then exactly that many
payload bytes — the actual length governs header and payload even when it
differs from the queried length; and the save returns `false` whenever the
actual length is zero.  The hypotheses are the value-range guarantees of the
driver types: `GLenum` format below `2^32`, `GLsizei` actual length
non-negative and at most the queried `GLint` length (beyond it the C++
`file.write` would read past the buffer), queried length below `2^31`. -/
theorem c6_serializer_output_layout (d : Driver) (co g : Bool) (p : Nat)
    (hfmt : d.getBinFormat p < 2 ^ 32)
    (hnn : 0 ≤ d.getBinActualLength p)
    (hq31 : d.binaryLengthQuery p < 2 ^ 31)
    (hle : d.getBinActualLength p ≤ d.binaryLengthQuery p) :
    ((saveProgramBinary d co g p).ok = true →
      (saveProgramBinary d co g p).written =
        some (u32Bytes (d.getBinFormat p) ++
          (u32Bytes (d.getBinActualLength p).toNat ++ savedPayload d p)) ∧
      (savedPayload d p).length = (d.getBinActualLength p).toNat) ∧
    (d.getBinActualLength p = 0 →
      (saveProgramBinary d co g p).ok = false) := by
  have e31 : (2 : Int) ^ 31 = 2147483648 := by norm_num
  have e32 : (2 : Int) ^ 32 = 4294967296 := by norm_num
  constructor
  · intro hok
    obtain ⟨h1, h2, h3, h4, h5, h6, h7, h8, hw⟩ :=
      saveProgramBinary_ok_elim d co g p hok
    have hlt32 : d.getBinActualLength p < (2 : Int) ^ 32 := by
      rw [e32]
      rw [e31] at hq31
      omega
    have hmod : d.getBinActualLength p % (2 : Int) ^ 32 =
        d.getBinActualLength p := Int.emod_eq_of_lt hnn hlt32
    have hfmtmod : d.getBinFormat p % 2 ^ 32 = d.getBinFormat p :=
      Nat.mod_eq_of_lt hfmt
    refine ⟨?_, savedPayload_length d p hnn hle⟩
    rw [hw, savedBytes, hfmtmod, hmod, List.append_assoc]
  · intro h0
    by_contra hbad
    have hok : (saveProgramBinary d co g p).ok = true := by
      revert hbad
      cases (saveProgramBinary d co g p).ok <;> simp
    obtain ⟨_, _, _, _, _, h6, _⟩ := saveProgramBinary_ok_elim d co g p hok
    exact h6 h0

/-- Witness for C6 on `okDriver` at program 5: the save succeeds and the
written bytes are tag 7, length 4, payload `[1,2,3,4]`. -/
theorem c6_serializer_output_layout_witness :
    (saveProgramBinary okDriver true true 5).written =
      some (u32Bytes (okDriver.getBinFormat 5) ++
        (u32Bytes (okDriver.getBinActualLength 5).toNat ++
          savedPayload okDriver 5)) ∧
    (savedPayload okDriver 5).length =
      (okDriver.getBinActualLength 5).toNat :=
  (c6_serializer_output_layout okDriver true true 5 (by decide) (by decide)
    (by decide) (by decide)).1 (by decide)

/-- C1 — Round-trip: whenever `saveProgramBinary` succeeded for a program
`p`, an immediately following `loadProgramBinary` of the very bytes the save
wrote — on the same driver, which (as the spec's "same driver/context"
premise requires) accepts back without error, and links, the binary it
itself produced, and whose `glCreateProgram` yields a non-zero handle —
returns a non-zero program handle whose post-load link status is success.
The remaining hypotheses are the driver type-range guarantees as in the
layout theorem. -/
theorem c1_roundtrip (d : Driver) (co g : Bool) (p jf : Nat) (jl : Int)
    (hok : (saveProgramBinary d co g p).ok = true)
    (hfmt : d.getBinFormat p < 2 ^ 32)
    (hnn : 0 ≤ d.getBinActualLength p)
    (hq31 : d.binaryLengthQuery p < 2 ^ 31)
    (hle : d.getBinActualLength p ≤ d.binaryLengthQuery p)
    (hfresh : d.freshProgram ≠ 0)
    (herr : d.errAfterProgramBinary d.freshProgram (d.getBinFormat p)
      (savedPayload d p) = false)
    (hlink : d.linkAfterProgramBinary d.freshProgram (d.getBinFormat p)
      (savedPayload d p) = true) :
    (saveProgramBinary d co g p).written = some (savedBytes d p) ∧
    (loadProgramBinary d jf jl (some (savedBytes d p))).result ≠ 0 ∧
    ∃ s, (loadProgramBinary d jf jl (some (savedBytes d p))).submitted
        = some s ∧
      d.linkAfterProgramBinary
        (loadProgramBinary d jf jl (some (savedBytes d p))).result s.1 s.2
        = true := by
  have e31n : (2 : Nat) ^ 31 = 2147483648 := by norm_num
  have e32n : (2 : Nat) ^ 32 = 4294967296 := by norm_num
  have e31 : (2 : Int) ^ 31 = 2147483648 := by norm_num
  have e32 : (2 : Int) ^ 32 = 4294967296 := by norm_num
  obtain ⟨h1, h2, h3, h4, h5, h6, h7, h8, hw⟩ :=
    saveProgramBinary_ok_elim d co g p hok
  have hA0 : 0 < d.getBinActualLength p := lt_of_le_of_ne hnn (Ne.symm h6)
  have hAlt : d.getBinActualLength p < (2 : Int) ^ 31 :=
    lt_of_le_of_lt hle hq31
  have hmod : d.getBinActualLength p % (2 : Int) ^ 32 =
      d.getBinActualLength p := by
    refine Int.emod_eq_of_lt hnn ?_
    rw [e32]
    rw [e31] at hAlt
    omega
  have hfmtmod : d.getBinFormat p % 2 ^ 32 = d.getBinFormat p :=
    Nat.mod_eq_of_lt hfmt
  have hbytes : savedBytes d p = u32Bytes (d.getBinFormat p) ++
      (u32Bytes (d.getBinActualLength p).toNat ++ savedPayload d p) := by
    rw [savedBytes, hfmtmod, hmod, List.append_assoc]
  have hplen : (savedPayload d p).length = (d.getBinActualLength p).toNat :=
    savedPayload_length d p hnn hle
  have hlen8 : 8 ≤ (savedBytes d p).length := by
    rw [hbytes]
    simp only [List.length_append, u32Bytes_length]
    omega
  have hANlt : (d.getBinActualLength p).toNat < 2 ^ 31 := by
    rw [e31n]
    rw [e31] at hAlt
    omega
  have hpf : parsedFormat jf (savedBytes d p) = d.getBinFormat p := by
    rw [parsedFormat, if_pos (by omega : 4 ≤ (savedBytes d p).length),
      hbytes, List.take_left' (u32Bytes_length _),
      decodeU32_u32Bytes _ hfmt]
  have hpl : parsedLength jl (savedBytes d p) =
      ((d.getBinActualLength p).toNat : Int) := by
    rw [parsedLength, if_pos hlen8, hbytes,
      List.drop_left' (u32Bytes_length _),
      List.take_left' (u32Bytes_length _),
      decodeU32_u32Bytes _ (by rw [e32n]; rw [e31n] at hANlt; omega),
      decodeI32_of_lt _ hANlt]
  have hdrop8 : (savedBytes d p).drop 8 = savedPayload d p := by
    rw [hbytes, show (8 : Nat) = 4 + 4 from rfl, ← List.drop_drop,
      List.drop_left' (u32Bytes_length _),
      List.drop_left' (u32Bytes_length _)]
  have hload : loadProgramBinary d jf jl (some (savedBytes d p)) =
      ⟨d.freshProgram, some (savedPayload d p),
        some (d.getBinFormat p, savedPayload d p), some d.freshProgram,
        []⟩ := by
    unfold loadProgramBinary
    rw [if_neg (by simp [h3])]
    dsimp only
    rw [hpf, hpl, if_neg (by omega : ¬ ((d.getBinActualLength p).toNat :
        Int) ≤ 0),
      hdrop8, show (((d.getBinActualLength p).toNat : Int)).toNat =
        (d.getBinActualLength p).toNat by omega,
      List.take_of_length_le (le_of_eq hplen),
      if_neg (not_not_intro (by rw [hplen])), if_neg (by simp [herr]),
      if_neg (not_not_intro hlink)]
  rw [hload]
  exact ⟨hw, hfresh, ⟨(d.getBinFormat p, savedPayload d p), rfl, hlink⟩⟩

/-- Witness for C1 on `okDriver`: saving program 5 writes
`[7,0,0,0,4,0,0,0,1,2,3,4]` and reloading those bytes yields handle 5 with
link status success. -/
theorem c1_roundtrip_witness :
    (saveProgramBinary okDriver true true 5).written =
      some (savedBytes okDriver 5) ∧
    (loadProgramBinary okDriver 0 0 (some (savedBytes okDriver 5))).result
      ≠ 0 ∧
    ∃ s, (loadProgramBinary okDriver 0 0
        (some (savedBytes okDriver 5))).submitted = some s ∧
      okDriver.linkAfterProgramBinary
        (loadProgramBinary okDriver 0 0
          (some (savedBytes okDriver 5))).result s.1 s.2 = true :=
  c1_roundtrip okDriver true true 5 0 0 (by decide) (by decide) (by decide)
    (by decide) (by decide) (by decide) (by decide) (by decide)

end ShadersBinary
